import Mathlib

/-!
Verification of the SelimCam camera-UI core against its source.

Shallow embedding of:
- `ipc.py` / `SharedFrameBuffer` (ping-pong double buffer over shared memory)
- `main_pc_sim.py` / `AsyncPhotoSaver` (bounded save queue with a background worker)
- `camera_service.py` / `CameraProcess` (zoom / exposure-compensation controls)
- `core/app_controller.py` / `AppController` + `AppState` (input-event state machine)

Machine reals (Python floats) are modelled as `Rat`; Python ints as `Int`/`Nat`.
Wall-clock reads (`time.perf_counter()`) are modelled as an explicit `now : Rat`
argument to the functions that call it.
-/

namespace SelimCam

/-! ## `ipc.py`: SharedFrameBuffer -/

/-- A numpy RGB frame: its shape `(height, width, channels)` plus flattened
pixel data (uint8 values). -/
structure Frame where
  shape : Nat × Nat × Nat
  data : List Nat
deriving DecidableEq

/-- State of `SharedFrameBuffer`: fixed dimensions, the two pixel slots
`buffer_a` / `buffer_b`, and the active-slot index `metadata[2]`. -/
structure SharedFrameBuffer where
  width : Nat
  height : Nat
  channels : Nat
  buffer_a : List Nat
  buffer_b : List Nat
  current_idx : Nat
deriving DecidableEq

/-- `SharedFrameBuffer.__init__` in the owner role: the shared-memory block is
created zero-filled (fresh `shared_memory.SharedMemory(create=True)`), so both
slots start as all-zero pixel data; `channels = 3`, and the metadata slot index
is initialised to `0`. -/
def SharedFrameBuffer.create (width height : Nat) : SharedFrameBuffer where
  width := width
  height := height
  channels := 3
  buffer_a := List.replicate (width * height * 3) 0
  buffer_b := List.replicate (width * height * 3) 0
  current_idx := 0

/-- `SharedFrameBuffer.write_frame`: reject a frame whose shape differs from
`(height, width, channels)`; otherwise copy the frame into the inactive slot
and flip the active-slot index. Returns the Python `bool` result together with
the post-state. -/
def SharedFrameBuffer.write_frame (b : SharedFrameBuffer) (frame : Frame) :
    Bool × SharedFrameBuffer :=
  if frame.shape ≠ (b.height, b.width, b.channels) then
    (false, b)
  else if b.current_idx = 0 then
    (true, { b with buffer_b := frame.data, current_idx := 1 })
  else
    (true, { b with buffer_a := frame.data, current_idx := 0 })

/-- `SharedFrameBuffer.read_frame`: return a view of the currently-active slot.
The Python return annotation is `Optional[np.ndarray]`, but every path returns
an ndarray view (shape `(height, width, channels)`), never `None`; we keep the
`Option` to mirror the annotation. -/
def SharedFrameBuffer.read_frame (b : SharedFrameBuffer) : Option Frame :=
  if b.current_idx = 0 then
    some ⟨(b.height, b.width, b.channels), b.buffer_a⟩
  else
    some ⟨(b.height, b.width, b.channels), b.buffer_b⟩

/-- C2: for a frame of the configured shape, `write_frame` succeeds, copies the
frame into the slot that was not active (leaving the previously-active slot
untouched) and flips the active-slot index, so that an immediately following
`read_frame` returns exactly the bytes just written. -/
theorem write_frame_publishes (b : SharedFrameBuffer) (frame : Frame)
    (h : frame.shape = (b.height, b.width, b.channels)) :
    (b.write_frame frame).1 = true ∧
    (b.write_frame frame).2.current_idx = (if b.current_idx = 0 then 1 else 0) ∧
    (if b.current_idx = 0 then (b.write_frame frame).2.buffer_b
      else (b.write_frame frame).2.buffer_a) = frame.data ∧
    (if b.current_idx = 0 then (b.write_frame frame).2.buffer_a
      else (b.write_frame frame).2.buffer_b)
      = (if b.current_idx = 0 then b.buffer_a else b.buffer_b) ∧
    (b.write_frame frame).2.read_frame = some frame := by
  obtain ⟨s, d⟩ := frame
  simp only [SharedFrameBuffer.write_frame, SharedFrameBuffer.read_frame] at *
  subst h
  by_cases h0 : b.current_idx = 0 <;> simp [h0]

/-- C2 witness: Scenario A at 2×2 scale — write an all-zero frame, then an
all-255 frame; `read_frame` returns exactly the all-255 frame. -/
theorem write_frame_publishes_witness :
    ((((SharedFrameBuffer.create 2 2).write_frame
        ⟨(2, 2, 3), List.replicate 12 0⟩).2.write_frame
        ⟨(2, 2, 3), List.replicate 12 255⟩).2.read_frame
      = some ⟨(2, 2, 3), List.replicate 12 255⟩) := by
  have h := write_frame_publishes
    (((SharedFrameBuffer.create 2 2).write_frame ⟨(2, 2, 3), List.replicate 12 0⟩).2)
    ⟨(2, 2, 3), List.replicate 12 255⟩ (by decide)
  exact h.2.2.2.2

/-- C3: a frame whose shape differs from the configured one is rejected:
`write_frame` returns `false`, the whole buffer state (in particular the
active-slot index) is unchanged, and a subsequent `read_frame` sees exactly
what was visible before the failed write. -/
theorem write_frame_shape_mismatch (b : SharedFrameBuffer) (frame : Frame)
    (h : frame.shape ≠ (b.height, b.width, b.channels)) :
    (b.write_frame frame).1 = false ∧
    (b.write_frame frame).2 = b ∧
    (b.write_frame frame).2.current_idx = b.current_idx ∧
    (b.write_frame frame).2.read_frame = b.read_frame := by
  simp [SharedFrameBuffer.write_frame, h]

/-- C3 witness: writing a 1×1 frame into a 2×2 buffer fails and changes
nothing. -/
theorem write_frame_shape_mismatch_witness :
    ((SharedFrameBuffer.create 2 2).write_frame ⟨(1, 1, 3), List.replicate 3 0⟩).1 = false ∧
    ((SharedFrameBuffer.create 2 2).write_frame ⟨(1, 1, 3), List.replicate 3 0⟩).2
      = SharedFrameBuffer.create 2 2 ∧
    ((SharedFrameBuffer.create 2 2).write_frame ⟨(1, 1, 3), List.replicate 3 0⟩).2.current_idx
      = (SharedFrameBuffer.create 2 2).current_idx ∧
    ((SharedFrameBuffer.create 2 2).write_frame ⟨(1, 1, 3), List.replicate 3 0⟩).2.read_frame
      = (SharedFrameBuffer.create 2 2).read_frame :=
  write_frame_shape_mismatch (SharedFrameBuffer.create 2 2)
    ⟨(1, 1, 3), List.replicate 3 0⟩ (by decide)

/-- C4 counterexample: on a freshly created 2×2 `SharedFrameBuffer`, before any
`write_frame`, `read_frame` does not return a distinguished "no frame yet"
value — it returns the zero-initialised buffer A, a pixel frame of the
configured shape. -/
theorem read_frame_fresh_counterexample :
    (SharedFrameBuffer.create 2 2).read_frame ≠ none ∧
    (SharedFrameBuffer.create 2 2).read_frame
      = some ⟨(2, 2, 3), List.replicate 12 0⟩ := by
  constructor <;> decide

/-- C4 amended: before the first `write_frame` on a freshly created
`SharedFrameBuffer`, `read_frame` returns the zero-initialised buffer A — an
all-zero pixel frame of the configured shape — rather than a distinguished
"no frame yet" result; no path of `read_frame` produces `None`. -/
theorem read_frame_fresh (width height : Nat) :
    (SharedFrameBuffer.create width height).read_frame
      = some ⟨(height, width, 3), List.replicate (width * height * 3) 0⟩ := by
  simp [SharedFrameBuffer.create, SharedFrameBuffer.read_frame]

/-! ## `main_pc_sim.py`: AsyncPhotoSaver (bounded save queue) -/

/-- One save task, as built by `AsyncPhotoSaver.enqueue`: a private copy of the
surface, the filter name, the date-stamp flag and the destination directory.
The surface is `Option`al so the spec's "poison" shape (no frame, empty path)
is expressible; the code itself always enqueues `some` copied surface. -/
structure SaveTask where
  surface : Option Frame
  filterName : String
  stamp : Bool
  dir : String
deriving DecidableEq

/-- A `queue.Queue(maxsize=capacity)` holding pending save tasks. -/
structure BoundedQueue (α : Type) where
  capacity : Nat
  tasks : List α
deriving DecidableEq

/-- `Queue.put_nowait`: append if the queue is not full, otherwise raise
`queue.Full` (modelled as `none`). -/
def BoundedQueue.putNowait {α : Type} (q : BoundedQueue α) (x : α) :
    Option (BoundedQueue α) :=
  if q.tasks.length < q.capacity then
    some { q with tasks := q.tasks ++ [x] }
  else
    none

/-- `main_pc_sim.py` builds its save queue with `queue.Queue(maxsize=8)`. -/
def mainPcSimQueueCapacity : Nat := 8

/-- `main_pc_sim_final.py` builds its save queue with `queue.Queue(maxsize=10)`. -/
def mainPcSimFinalQueueCapacity : Nat := 10

/-- UI-side state of `AsyncPhotoSaver`: the bounded queue plus the
`buffer_busy` flag that `enqueue` sets. -/
structure AsyncPhotoSaver where
  q : BoundedQueue SaveTask
  bufferBusy : Bool
deriving DecidableEq

/-- `AsyncPhotoSaver.enqueue`: set `buffer_busy`, then `put_nowait` the task;
a `queue.Full` exception is swallowed (the capture is dropped). Returns the
post-state and whether the task was accepted. -/
def AsyncPhotoSaver.enqueue (s : AsyncPhotoSaver) (t : SaveTask) :
    AsyncPhotoSaver × Bool :=
  let s2 : AsyncPhotoSaver := { s with bufferBusy := true }
  match s2.q.putNowait t with
  | some q2 => ({ s2 with q := q2 }, true)
  | none => (s2, false)

/-- Issue a burst of enqueue requests with the worker paused (no draining);
returns the final saver state and the number of accepted tasks. -/
def AsyncPhotoSaver.enqueueAll (s : AsyncPhotoSaver) :
    List SaveTask → AsyncPhotoSaver × Nat
  | [] => (s, 0)
  | t :: ts =>
    let r := s.enqueue t
    let rest := AsyncPhotoSaver.enqueueAll r.1 ts
    (rest.1, (if r.2 then 1 else 0) + rest.2)

/-- Largest pending-task count observed at any point of an enqueue burst. -/
def AsyncPhotoSaver.maxPendingDuring (s : AsyncPhotoSaver) :
    List SaveTask → Nat
  | [] => s.q.tasks.length
  | t :: ts => max s.q.tasks.length ((s.enqueue t).1.maxPendingDuring ts)

theorem enqueue_capacity (s : AsyncPhotoSaver) (t : SaveTask) :
    (s.enqueue t).1.q.capacity = s.q.capacity := by
  by_cases hlt : s.q.tasks.length < s.q.capacity <;>
    simp [AsyncPhotoSaver.enqueue, BoundedQueue.putNowait, hlt]

theorem enqueue_length_of_lt (s : AsyncPhotoSaver) (t : SaveTask)
    (hlt : s.q.tasks.length < s.q.capacity) :
    (s.enqueue t).1.q.tasks.length = s.q.tasks.length + 1 := by
  simp [AsyncPhotoSaver.enqueue, BoundedQueue.putNowait, hlt]

theorem enqueue_length_of_full (s : AsyncPhotoSaver) (t : SaveTask)
    (hlt : ¬ s.q.tasks.length < s.q.capacity) :
    (s.enqueue t).1.q.tasks.length = s.q.tasks.length := by
  simp [AsyncPhotoSaver.enqueue, BoundedQueue.putNowait, hlt]

theorem enqueue_accepted_of_lt (s : AsyncPhotoSaver) (t : SaveTask)
    (hlt : s.q.tasks.length < s.q.capacity) :
    (s.enqueue t).2 = true := by
  simp [AsyncPhotoSaver.enqueue, BoundedQueue.putNowait, hlt]

theorem enqueue_accepted_of_full (s : AsyncPhotoSaver) (t : SaveTask)
    (hlt : ¬ s.q.tasks.length < s.q.capacity) :
    (s.enqueue t).2 = false := by
  simp [AsyncPhotoSaver.enqueue, BoundedQueue.putNowait, hlt]

theorem enqueueAll_accepted_count (ts : List SaveTask) :
    ∀ s : AsyncPhotoSaver, s.q.tasks.length ≤ s.q.capacity →
      (s.enqueueAll ts).2 = min (s.q.capacity - s.q.tasks.length) ts.length := by
  induction ts with
  | nil => intro s _; simp [AsyncPhotoSaver.enqueueAll]
  | cons t ts ih =>
    intro s hs
    by_cases hlt : s.q.tasks.length < s.q.capacity
    · have hlen := enqueue_length_of_lt s t hlt
      have hcap := enqueue_capacity s t
      have hrec := ih (s.enqueue t).1 (by rw [hlen, hcap]; omega)
      rw [hlen, hcap] at hrec
      simp only [AsyncPhotoSaver.enqueueAll, enqueue_accepted_of_lt s t hlt,
        if_true, hrec, List.length_cons]
      omega
    · have hlen := enqueue_length_of_full s t hlt
      have hcap := enqueue_capacity s t
      have hrec := ih (s.enqueue t).1 (by rw [hlen, hcap]; omega)
      rw [hlen, hcap] at hrec
      simp only [AsyncPhotoSaver.enqueueAll, enqueue_accepted_of_full s t hlt,
        if_false, hrec, List.length_cons, Bool.false_eq_true]
      omega

theorem maxPendingDuring_le (ts : List SaveTask) :
    ∀ s : AsyncPhotoSaver, s.q.tasks.length ≤ s.q.capacity →
      s.maxPendingDuring ts ≤ s.q.capacity := by
  induction ts with
  | nil => intro s hs; simpa [AsyncPhotoSaver.maxPendingDuring] using hs
  | cons t ts ih =>
    intro s hs
    have h2 : (s.enqueue t).1.q.tasks.length ≤ (s.enqueue t).1.q.capacity := by
      by_cases hlt : s.q.tasks.length < s.q.capacity
      · rw [enqueue_length_of_lt s t hlt, enqueue_capacity]; omega
      · rw [enqueue_length_of_full s t hlt, enqueue_capacity]; omega
    have hrec := ih (s.enqueue t).1 h2
    rw [enqueue_capacity] at hrec
    simp only [AsyncPhotoSaver.maxPendingDuring]
    omega

/-- C1: starting from an empty save queue of capacity `K`, a burst of `K + 1`
enqueue requests with the worker paused accepts exactly `K` tasks (so at most
`K`), rejects the remaining request (the `queue.Full` path, which returns to
the caller immediately instead of blocking), and the number of pending tasks
never exceeds `K` at any point of the burst. -/
theorem save_queue_backpressure (K : Nat) (ts : List SaveTask)
    (h : ts.length = K + 1) :
    ((⟨⟨K, []⟩, false⟩ : AsyncPhotoSaver).enqueueAll ts).2 = K ∧
    ts.length - ((⟨⟨K, []⟩, false⟩ : AsyncPhotoSaver).enqueueAll ts).2 = 1 ∧
    (⟨⟨K, []⟩, false⟩ : AsyncPhotoSaver).maxPendingDuring ts ≤ K := by
  have hcount := enqueueAll_accepted_count ts (⟨⟨K, []⟩, false⟩ : AsyncPhotoSaver)
    (by simp)
  have hmax := maxPendingDuring_le ts (⟨⟨K, []⟩, false⟩ : AsyncPhotoSaver)
    (by simp)
  simp only [List.length_nil, Nat.sub_zero, h] at hcount
  refine ⟨?_, ?_, hmax⟩ <;> omega

/-- C1 witness: Scenario B — capacity 2, three requests: exactly 2 accepted,
1 rejected, pending never above 2. -/
theorem save_queue_backpressure_witness :
    ((⟨⟨2, []⟩, false⟩ : AsyncPhotoSaver).enqueueAll
        [⟨none, "none", false, "p1"⟩, ⟨none, "none", false, "p2"⟩,
          ⟨none, "none", false, "p3"⟩]).2 = 2 ∧
    ([⟨none, "none", false, "p1"⟩, ⟨none, "none", false, "p2"⟩,
        (⟨none, "none", false, "p3"⟩ : SaveTask)].length
      - ((⟨⟨2, []⟩, false⟩ : AsyncPhotoSaver).enqueueAll
          [⟨none, "none", false, "p1"⟩, ⟨none, "none", false, "p2"⟩,
            ⟨none, "none", false, "p3"⟩]).2) = 1 ∧
    (⟨⟨2, []⟩, false⟩ : AsyncPhotoSaver).maxPendingDuring
        [⟨none, "none", false, "p1"⟩, ⟨none, "none", false, "p2"⟩,
          ⟨none, "none", false, "p3"⟩] ≤ 2 :=
  save_queue_backpressure 2
    [⟨none, "none", false, "p1"⟩, ⟨none, "none", false, "p2"⟩,
      ⟨none, "none", false, "p3"⟩] rfl

/-! ## `main_pc_sim.py`: the save-worker loop (`AsyncPhotoSaver._loop`) -/

/-- The worker loop of `AsyncPhotoSaver._loop` run over the tasks currently in
the queue: `while True: task = q.get(); try: _save(task) ... finally:
task_done(); if q.empty(): buffer_busy = False`. The loop body contains no
break/return for any task, so every dequeued task is processed; save errors
are caught and the loop continues. Returns the final `buffer_busy` flag and
the tasks processed, in FIFO order; with an empty queue the thread blocks in
`q.get()` (the loop never exits). -/
def workerDrain (busy : Bool) : List SaveTask → Bool × List SaveTask
  | [] => (busy, [])
  | t :: ts =>
    let busy2 := if ts.isEmpty then false else busy
    let rest := workerDrain busy2 ts
    (rest.1, t :: rest.2)

/-- The spec's "poison" task shape: empty path, no frame. -/
def poisonTask : SaveTask := ⟨none, "", false, ""⟩

/-- C8 counterexample: the worker does not terminate when it dequeues the
poison-shaped task — a task queued behind it is still processed, contradicting
"after which the worker processes no further tasks". -/
theorem worker_poison_counterexample :
    (workerDrain true [poisonTask, ⟨none, "none", false, "p"⟩]).2
        = [poisonTask, ⟨none, "none", false, "p"⟩] ∧
    (workerDrain true [poisonTask, ⟨none, "none", false, "p"⟩]).2
        ≠ [poisonTask] := by
  constructor <;> decide

/-- C8 amended: the save-worker loop never terminates on any dequeued task —
there is no poison-task check; it processes every queued task in FIFO order
(a task with empty path and no frame is handled like any other, and tasks
dequeued after it are still processed) and clears `buffer_busy` once the queue
drains. The saver has no stop sequence: no poison task is ever enqueued and
the worker is never joined — it is a daemon thread that ends only with the
process. -/
theorem worker_processes_everything (busy : Bool) (ts : List SaveTask)
    (h : ts ≠ []) :
    (workerDrain busy ts).2 = ts ∧ (workerDrain busy ts).1 = false := by
  induction ts generalizing busy with
  | nil => exact absurd rfl h
  | cons t ts ih =>
    cases ts with
    | nil => simp [workerDrain]
    | cons u us =>
      have hrec := ih busy (by simp)
      simp only [workerDrain, List.isEmpty_cons, if_false, Bool.false_eq_true] at hrec ⊢
      exact ⟨by rw [hrec.1], hrec.2⟩

/-- C8 amended witness: a queue holding just the poison-shaped task is fully
processed and leaves the busy flag cleared. -/
theorem worker_processes_everything_witness :
    (workerDrain true [poisonTask]).2 = [poisonTask] ∧
    (workerDrain true [poisonTask]).1 = false :=
  worker_processes_everything true [poisonTask] (by decide)

/-! ## `camera_service.py`: CameraProcess zoom / exposure controls -/

/-- The picamera2 handle as the controls dictionary written through
`set_controls`; modelled as an association list where the most recent write
for a key shadows earlier ones. -/
structure PiCamera where
  controls : List (String × Rat)
deriving DecidableEq

/-- `camera.set_controls({...})`: merge the given key/value pairs into the
controls dictionary (new entries shadow old ones on lookup). -/
def PiCamera.set_controls (cam : PiCamera) (kvs : List (String × Rat)) : PiCamera :=
  ⟨kvs ++ cam.controls⟩

/-- First-match association-list lookup (dictionary read). -/
def lookupControl : List (String × Rat) → String → Option Rat
  | [], _ => none
  | (k, v) :: rest, key => if k = key then some v else lookupControl rest key

/-- `CameraProcess`, restricted to the camera handle its control setters
touch; `camera = none` is the uninitialised (`self.camera` falsy) case. -/
structure CameraProcess where
  camera : Option PiCamera
deriving DecidableEq

/-- `CameraProcess.set_zoom`: early-returns when there is no camera; the body
is an unimplemented stub (`# TODO ... pass`), so in every case the state is
left unchanged. -/
def CameraProcess.set_zoom (cp : CameraProcess) (_zoom : Rat) : CameraProcess :=
  match cp.camera with
  | none => cp
  | some _ => cp

/-- `CameraProcess.set_exposure_compensation`: early-returns when there is no
camera; otherwise forwards `ev` to `camera.set_controls({'ExposureValue': ev})`
with no clamping (the try/except only guards hardware errors). -/
def CameraProcess.set_exposure_compensation (cp : CameraProcess) (ev : Rat) :
    CameraProcess :=
  match cp.camera with
  | none => cp
  | some cam => ⟨some (cam.set_controls [("ExposureValue", ev)])⟩

/-- The EV the camera will apply: the current `ExposureValue` control. -/
def effectiveEV (cp : CameraProcess) : Option Rat :=
  match cp.camera with
  | none => none
  | some cam => lookupControl cam.controls "ExposureValue"

/-- C7 counterexample: on a live camera, `set_exposure_compensation 5` makes
the effective `ExposureValue` equal to `5`, which is not in `[-2, 2]` — the
input is forwarded unclamped, refuting the clamping claim. -/
theorem set_exposure_unclamped_counterexample :
    effectiveEV (CameraProcess.set_exposure_compensation ⟨some ⟨[]⟩⟩ 5) = some 5 ∧
    ¬ ((-2 : Rat) ≤ 5 ∧ (5 : Rat) ≤ 2) := by
  constructor
  · rfl
  · intro h
    have := h.2
    norm_num at this

/-- C7 amended: `set_zoom` is an unimplemented stub that leaves the camera
process unchanged for every input (no effective zoom is ever applied), and
`set_exposure_compensation` forwards its argument to the camera unclamped, so
on a live camera the effective EV equals the input, out-of-range or not. -/
theorem camera_controls_unclamped (cp : CameraProcess) (zoom ev : Rat)
    (cam : PiCamera) (h : cp.camera = some cam) :
    cp.set_zoom zoom = cp ∧
    effectiveEV (cp.set_exposure_compensation ev) = some ev := by
  constructor
  · unfold CameraProcess.set_zoom
    rw [h]
  · unfold CameraProcess.set_exposure_compensation
    rw [h]
    simp [effectiveEV, PiCamera.set_controls, lookupControl]

/-- C7 amended witness: at a live camera and EV input 9/2, `set_zoom` is a
no-op and the effective EV is 9/2. -/
theorem camera_controls_unclamped_witness :
    (⟨some ⟨[]⟩⟩ : CameraProcess).set_zoom 3 = ⟨some ⟨[]⟩⟩ ∧
    effectiveEV ((⟨some ⟨[]⟩⟩ : CameraProcess).set_exposure_compensation (9/2))
      = some (9/2) :=
  camera_controls_unclamped ⟨some ⟨[]⟩⟩ 3 (9/2) ⟨[]⟩ rfl

/-! ## `core/app_controller.py`: AppController / AppState -/

/-- Module constants of `core/app_controller.py`. -/
def FILTERS : List String := ["none", "vintage", "bw", "vivid", "portrait"]

/-- Grid overlay modes. -/
def GRID_MODES : List String := ["off", "thirds", "center"]

/-- Level overlay modes. -/
def LEVEL_MODES : List String := ["off", "line"]

/-- `core/i18n.py`, English table. -/
def i18nEn : List (String × String) :=
  [("mode", "PRO"), ("grid", "Grid"), ("level", "Level"), ("lang", "Language"),
    ("flash", "Flash"), ("shutdown", "Shutdown"), ("gallery", "Gallery"),
    ("capture", "Capture"), ("filter", "Filter"), ("status", "Status"),
    ("ready", "Ready")]

/-- `core/i18n.py`, German table. -/
def i18nDe : List (String × String) :=
  [("mode", "PRO"), ("grid", "Raster"), ("level", "Wasserwaage"),
    ("lang", "Sprache"), ("flash", "Blitz"), ("shutdown", "Ausschalten"),
    ("gallery", "Galerie"), ("capture", "Auslösen"), ("filter", "Filter"),
    ("status", "Status"), ("ready", "Bereit")]

/-- First-match association-list lookup (dictionary `.get`). -/
def lookupStr : List (String × String) → String → Option String
  | [], _ => none
  | (k, v) :: rest, key => if k = key then some v else lookupStr rest key

/-- `AppState.t`: `I18N[self.lang].get(key, key)`. The program only ever sets
`lang` to `"en"` or `"de"`; any other language falls back to the English
table here. -/
def translate (lang key : String) : String :=
  match lookupStr (if lang = "de" then i18nDe else i18nEn) key with
  | some v => v
  | none => key

/-- Scenes of the controller. -/
inductive Scene where
  | CAMERA
  | GALLERY
deriving DecidableEq

/-- `core/input_events.py` event kinds. -/
inductive EventType where
  | TOUCH_DOWN
  | TOUCH_MOVE
  | TOUCH_UP
  | ENCODER_DETENT
  | ENCODER_PRESS
  | SHUTTER_PRESS
  | SHUTDOWN
  | FLASH_TOGGLE
  | TOGGLE_GRID
  | TOGGLE_LEVEL
  | TOGGLE_LANG
  | TOGGLE_DEBUG
  | BACK
deriving DecidableEq

/-- `InputEvent{type, pos, delta, timestamp}`. -/
structure InputEvent where
  type : EventType
  pos : Int × Int := (0, 0)
  delta : Int := 0
  timestamp : Rat := 0
deriving DecidableEq

/-- `AppState` from `core/app_controller.py`, restricted to the fields the
controller logic reads or writes. `last_input_latency_ms` (a wall-clock
measurement) and the display-only fields `preview_mode`/`iso`/`shutter`/`ev`/
`battery_pct` are carried by no transition and are omitted. -/
structure AppState where
  lang : String := "en"
  scene : Scene := Scene.CAMERA
  nav_stack : List Scene := [Scene.CAMERA]
  filter_idx : Int := 0
  grid_mode_idx : Int := 0
  level_mode_idx : Int := 0
  flash_on : Bool := false
  shutdown_requested : Bool := false
  sidebar_open : Bool := false
  sidebar_anim : Rat := 0
  haptics_strength : Rat := 6/10
  touch_down : Bool := false
  touch_pos : Int × Int := (0, 0)
  touch_target : Option String := none
  pressed_until : Rat := 0
  toast : String := ""
  toast_until : Rat := 0
  freeze_until : Rat := 0
  debug_overlay : Bool := false
  gallery_index : Int := 0
  gallery_swipe_x : Rat := 0
  gallery_velocity : Rat := 0
  dirty_rects : List (Int × Int × Int × Int) := []
deriving DecidableEq

/-- `AppController`: canvas size, state, and the renderer-registered hitboxes
(`name ↦ (x, y, w, h)`), as an insertion-ordered association list. -/
structure AppController where
  width : Int
  height : Int
  state : AppState := {}
  hitboxes : List (String × (Int × Int × Int × Int)) := []
deriving DecidableEq

/-- `AppController.__init__(width, height)`. -/
def AppController.init (width height : Int) : AppController :=
  { width := width, height := height }

/-- `AppController.set_hitboxes`. -/
def AppController.set_hitboxes (c : AppController)
    (boxes : List (String × (Int × Int × Int × Int))) : AppController :=
  { c with hitboxes := boxes }

/-- `AppController.mark_dirty`. -/
def AppController.mark_dirty (c : AppController)
    (rect : Int × Int × Int × Int) : AppController :=
  { c with state.dirty_rects := c.state.dirty_rects ++ [rect] }

/-- `AppController.mark_all_dirty`. -/
def AppController.mark_all_dirty (c : AppController) : AppController :=
  c.mark_dirty (0, 0, c.width, c.height)

/-- `AppController.push_scene`: switch scene and push it, only when it
differs from the current scene. -/
def AppController.push_scene (c : AppController) (scene : Scene) : AppController :=
  if c.state.scene ≠ scene then
    { c with
        state.scene := scene
        state.nav_stack := c.state.nav_stack ++ [scene] }
  else c

/-- `AppController.back`: close an open sidebar first; else pop the nav stack
when its depth exceeds 1 and show the new top; else request shutdown. -/
def AppController.back (c : AppController) : AppController :=
  if c.state.sidebar_open then
    { c with state.sidebar_open := false }
  else if 1 < c.state.nav_stack.length then
    { c with
        state.nav_stack := c.state.nav_stack.dropLast
        state.scene := c.state.nav_stack.dropLast.getLastD Scene.CAMERA }
  else
    { c with state.shutdown_requested := true }

/-- `AppController._hit`: first registered hitbox containing the point, in
insertion order. -/
def hitFind : List (String × (Int × Int × Int × Int)) → Int × Int → Option String
  | [], _ => none
  | (key, (rx, ry, rw, rh)) :: rest, p =>
    if rx ≤ p.1 ∧ p.1 ≤ rx + rw ∧ ry ≤ p.2 ∧ p.2 ≤ ry + rh then some key
    else hitFind rest p

/-- First-match hitbox lookup (`self.hitboxes[key]` plus the `in` test). -/
def lookupBox : List (String × (Int × Int × Int × Int)) → String →
    Option (Int × Int × Int × Int)
  | [], _ => none
  | (k, v) :: rest, key => if k = key then some v else lookupBox rest key

/-- `AppController._on_press`: on a `None` key do nothing; otherwise arm the
pressed-highlight timer, dispatch on the control name, and mark everything
dirty. `now` stands for the `time.perf_counter()` reads. -/
def AppController._on_press (now : Rat) (c : AppController)
    (key : Option String) : AppController :=
  match key with
  | none => c
  | some k =>
    let c := { c with state.pressed_until := now + 11/100 }
    let c :=
      if k = "back" then c.back
      else if k = "handle" then
        { c with state.sidebar_open := !c.state.sidebar_open }
      else if k = "capture" then
        { c with
            state.toast := translate c.state.lang "capture"
            state.toast_until := now + 6/10
            state.freeze_until := now + 6/10 }
      else if k = "thumb" then c.push_scene Scene.GALLERY
      else if k = "filter_wheel" then
        { c with state.filter_idx := (c.state.filter_idx + 1) % (FILTERS.length : Int) }
      else if k = "grid" then
        { c with state.grid_mode_idx := (c.state.grid_mode_idx + 1) % (GRID_MODES.length : Int) }
      else if k = "level" then
        { c with state.level_mode_idx := (c.state.level_mode_idx + 1) % (LEVEL_MODES.length : Int) }
      else if k = "lang" then
        { c with state.lang := if c.state.lang = "en" then "de" else "en" }
      else if k = "gallery_prev" then
        { c with state.gallery_index := max 0 (c.state.gallery_index - 1) }
      else if k = "gallery_next" then
        { c with state.gallery_index := c.state.gallery_index + 1 }
      else c
    c.mark_all_dirty

/-- `AppController._update_sidebar_drag`: while the haptics slider is the
touch target, recompute its strength from the horizontal position clamped to
the slider extent. -/
def AppController._update_sidebar_drag (c : AppController)
    (pos : Int × Int) : AppController :=
  if c.state.touch_target = some "haptics" then
    match lookupBox c.hitboxes "haptics" with
    | some (x0, _, w, _) =>
      let x := max x0 (min (x0 + w) pos.1)
      ({ c with
          state.haptics_strength := ((x - x0 : Int) : Rat) / ((max 1 w : Int) : Rat)
        }).mark_all_dirty
    | none => c
  else c

/-- `AppController.tick(dt)`: advance the sidebar animation toward its target,
apply gallery swipe inertia with damping 0.88, and expire the toast. `now`
stands for the `time.perf_counter()` read in the toast check. -/
def AppController.tick (now : Rat) (c : AppController) (dt : Rat) : AppController :=
  let target : Rat := if c.state.sidebar_open then 1 else 0
  let before := c.state.sidebar_anim
  let anim := before + (target - before) * min 1 (dt * 8)
  let c := { c with state.sidebar_anim := anim }
  let c := if 5/10000 < |anim - before| then c.mark_all_dirty else c
  let c :=
    if c.state.scene = Scene.GALLERY ∧ 1/100 < |c.state.gallery_velocity| then
      ({ c with
          state.gallery_swipe_x := c.state.gallery_swipe_x + c.state.gallery_velocity * dt
          state.gallery_velocity := c.state.gallery_velocity * (88/100) }).mark_all_dirty
    else c
  if c.state.toast ≠ "" ∧ c.state.toast_until < now then
    ({ c with state.toast := "" }).mark_all_dirty
  else c

/-- `AppController.handle(event)`: the event dispatcher. `now` stands for the
`time.perf_counter()` reads; the wall-clock latency bookkeeping at entry/exit
is not part of the state logic. -/
def AppController.handle (now : Rat) (c : AppController) (e : InputEvent) :
    AppController :=
  match e.type with
  | EventType.ENCODER_DETENT =>
    ({ c with
        state.filter_idx :=
          (c.state.filter_idx + (if 0 ≤ e.delta then 1 else -1)) % (FILTERS.length : Int)
      }).mark_all_dirty
  | EventType.ENCODER_PRESS =>
    ({ c with state.sidebar_open := !c.state.sidebar_open }).mark_all_dirty
  | EventType.TOGGLE_DEBUG =>
    ({ c with state.debug_overlay := !c.state.debug_overlay }).mark_all_dirty
  | EventType.TOGGLE_GRID =>
    ({ c with
        state.grid_mode_idx := (c.state.grid_mode_idx + 1) % (GRID_MODES.length : Int)
      }).mark_all_dirty
  | EventType.TOGGLE_LEVEL =>
    ({ c with
        state.level_mode_idx := (c.state.level_mode_idx + 1) % (LEVEL_MODES.length : Int)
      }).mark_all_dirty
  | EventType.TOGGLE_LANG =>
    ({ c with state.lang := if c.state.lang = "en" then "de" else "en" }).mark_all_dirty
  | EventType.FLASH_TOGGLE =>
    ({ c with state.flash_on := !c.state.flash_on }).mark_all_dirty
  | EventType.SHUTTER_PRESS =>
    ({ c with
        state.toast := translate c.state.lang "saved"
        state.toast_until := now + 6/10
        state.freeze_until := now + 6/10 }).mark_all_dirty
  | EventType.SHUTDOWN =>
    { c with state.shutdown_requested := true }
  | EventType.BACK =>
    c.back.mark_all_dirty
  | EventType.TOUCH_DOWN =>
    let tgt := hitFind c.hitboxes e.pos
    let c := { c with
        state.touch_down := true
        state.touch_pos := e.pos
        state.touch_target := tgt }
    AppController._on_press now c tgt
  | EventType.TOUCH_MOVE =>
    let c := { c with state.touch_pos := e.pos }
    let c := c._update_sidebar_drag e.pos
    if c.state.scene = Scene.GALLERY then
      ({ c with
          state.gallery_velocity := (e.delta : Rat) * 7
          state.gallery_swipe_x := c.state.gallery_swipe_x + (e.delta : Rat)
        }).mark_all_dirty
    else c
  | EventType.TOUCH_UP =>
    let c := { c with state.touch_down := false }
    let c :=
      if c.state.scene = Scene.GALLERY ∧ (24 : Rat) < |c.state.gallery_swipe_x| then
        let idx : Int :=
          if c.state.gallery_swipe_x < (0 : Rat) then c.state.gallery_index + 1
          else max 0 (c.state.gallery_index - 1)
        ({ c with
            state.gallery_index := idx
            state.gallery_swipe_x := 0 }).mark_all_dirty
      else c
    { c with state.touch_target := none }

/-- An encoder detent event with the given delta. -/
def detentEvent (d : Int) : InputEvent :=
  { type := EventType.ENCODER_DETENT, delta := d }

/-- A bare Back event. -/
def backEvent : InputEvent := { type := EventType.BACK }

/-- A bare touch-up event. -/
def touchUpEvent : InputEvent := { type := EventType.TOUCH_UP }

/-- A touch-move event at `pos` with horizontal delta `d`. -/
def touchMoveEvent (pos : Int × Int) (d : Int) : InputEvent :=
  { type := EventType.TOUCH_MOVE, pos := pos, delta := d }

/-- `n` consecutive detent events with delta `d`. -/
def detentIter (now : Rat) (d : Int) : Nat → AppController → AppController
  | 0, c => c
  | n + 1, c => detentIter now d n (AppController.handle now c (detentEvent d))

theorem handle_detent_filter_idx (now : Rat) (c : AppController) (d : Int) :
    (AppController.handle now c (detentEvent d)).state.filter_idx
      = (c.state.filter_idx + (if 0 ≤ d then 1 else -1)) % 5 := by
  simp [AppController.handle, detentEvent, AppController.mark_all_dirty,
    AppController.mark_dirty, FILTERS]

/-- C5: against the 5-element filter list, `FILTERS.length` consecutive
encoder detents with delta +1 return `filter_idx` to its starting value,
each detent advancing it by one modulo the list length; and a detent with
delta −1 is the exact inverse of a detent with delta +1, in either order. -/
theorem encoder_detent_wrap (now : Rat) (c : AppController)
    (h0 : 0 ≤ c.state.filter_idx)
    (h5 : c.state.filter_idx < (FILTERS.length : Int)) :
    (AppController.handle now c (detentEvent 1)).state.filter_idx
        = (c.state.filter_idx + 1) % (FILTERS.length : Int) ∧
    (detentIter now 1 FILTERS.length c).state.filter_idx = c.state.filter_idx ∧
    (AppController.handle now (AppController.handle now c (detentEvent 1))
        (detentEvent (-1))).state.filter_idx = c.state.filter_idx ∧
    (AppController.handle now (AppController.handle now c (detentEvent (-1)))
        (detentEvent 1)).state.filter_idx = c.state.filter_idx := by
  have hlen : (FILTERS.length : Int) = 5 := by decide
  simp only [FILTERS, List.length_cons, List.length_nil] at *
  refine ⟨?_, ?_, ?_, ?_⟩ <;>
    simp only [detentIter, handle_detent_filter_idx] <;>
    norm_num <;>
    omega

/-- C5 witness: from the initial controller (filter index 0), one detent
advances to 1 mod 5, five detents return to 0, and ±1 detents cancel. -/
theorem encoder_detent_wrap_witness :
    (AppController.handle 0 (AppController.init 480 640) (detentEvent 1)).state.filter_idx
        = ((AppController.init 480 640).state.filter_idx + 1) % (FILTERS.length : Int) ∧
    (detentIter 0 1 FILTERS.length (AppController.init 480 640)).state.filter_idx
        = (AppController.init 480 640).state.filter_idx ∧
    (AppController.handle 0 (AppController.handle 0 (AppController.init 480 640)
        (detentEvent 1)) (detentEvent (-1))).state.filter_idx
        = (AppController.init 480 640).state.filter_idx ∧
    (AppController.handle 0 (AppController.handle 0 (AppController.init 480 640)
        (detentEvent (-1))) (detentEvent 1)).state.filter_idx
        = (AppController.init 480 640).state.filter_idx :=
  encoder_detent_wrap 0 (AppController.init 480 640) (by decide) (by decide)

/-- C6: Back-event precedence. If the sidebar is open, Back closes it and
leaves scene, nav stack and the shutdown flag unchanged; else if the nav
stack is deeper than 1, Back pops it and shows the new top without touching
the sidebar flag or requesting shutdown; else Back requests shutdown. -/
theorem back_precedence (now : Rat) (c : AppController) :
    ((AppController.handle now c backEvent).state.sidebar_open
        = (if c.state.sidebar_open then false else c.state.sidebar_open)) ∧
    ((AppController.handle now c backEvent).state.scene
        = (if c.state.sidebar_open then c.state.scene
           else if 1 < c.state.nav_stack.length then
             c.state.nav_stack.dropLast.getLastD Scene.CAMERA
           else c.state.scene)) ∧
    ((AppController.handle now c backEvent).state.nav_stack
        = (if c.state.sidebar_open then c.state.nav_stack
           else if 1 < c.state.nav_stack.length then c.state.nav_stack.dropLast
           else c.state.nav_stack)) ∧
    ((AppController.handle now c backEvent).state.shutdown_requested
        = (if c.state.sidebar_open then c.state.shutdown_requested
           else if 1 < c.state.nav_stack.length then c.state.shutdown_requested
           else true)) := by
  by_cases hs : c.state.sidebar_open <;>
    by_cases hn : 1 < c.state.nav_stack.length <;>
    simp [AppController.handle, backEvent, AppController.back,
      AppController.mark_all_dirty, AppController.mark_dirty, hs, hn]

/-- C9 counterexample: in the Gallery scene with accumulated swipe +100
(positive, beyond the 24px threshold) and gallery index 5, a touch-up moves
the index to 4 — the previous image — not to 6 as the claim ("a positive
accumulated swipe advances to the next image") requires. -/
theorem gallery_swipe_counterexample :
    (AppController.handle 0
        { width := 480, height := 640,
          state := { scene := Scene.GALLERY, gallery_index := 5, gallery_swipe_x := 100 } }
        touchUpEvent).state.gallery_index = 4 ∧
    (AppController.handle 0
        { width := 480, height := 640,
          state := { scene := Scene.GALLERY, gallery_index := 5, gallery_swipe_x := 100 } }
        touchUpEvent).state.gallery_index
      ≠ ({ scene := Scene.GALLERY, gallery_index := 5,
            gallery_swipe_x := 100 : AppState }).gallery_index + 1 := by
  constructor <;> decide

theorem drag_scene_eq (c : AppController) (p : Int × Int) :
    (AppController._update_sidebar_drag c p).state.scene = c.state.scene := by
  unfold AppController._update_sidebar_drag
  split
  · split
    · simp [AppController.mark_all_dirty, AppController.mark_dirty]
    · simp
  · simp

theorem drag_swipe_eq (c : AppController) (p : Int × Int) :
    (AppController._update_sidebar_drag c p).state.gallery_swipe_x
      = c.state.gallery_swipe_x := by
  unfold AppController._update_sidebar_drag
  split
  · split
    · simp [AppController.mark_all_dirty, AppController.mark_dirty]
    · simp
  · simp

theorem drag_gallery_index_eq (c : AppController) (p : Int × Int) :
    (AppController._update_sidebar_drag c p).state.gallery_index
      = c.state.gallery_index := by
  unfold AppController._update_sidebar_drag
  split
  · split
    · simp [AppController.mark_all_dirty, AppController.mark_dirty]
    · simp
  · simp

/-- C9 amended: in the Gallery scene, touch-move events accumulate a
horizontal swipe displacement; a touch-up whose accumulated swipe exceeds the
24px threshold changes the gallery index — a NEGATIVE accumulated swipe
advances to the next image and a POSITIVE one goes to the previous image,
clamped at zero — and resets the accumulated swipe to zero; a touch-up with
swipe magnitude at or below the threshold leaves the gallery index
unchanged. -/
theorem gallery_swipe_semantics (now : Rat) (c : AppController)
    (p : Int × Int) (d : Int) :
    ((AppController.handle now c (touchMoveEvent p d)).state.gallery_swipe_x
        = (if c.state.scene = Scene.GALLERY then c.state.gallery_swipe_x + (d : Rat)
           else c.state.gallery_swipe_x)) ∧
    ((AppController.handle now c touchUpEvent).state.gallery_index
        = (if c.state.scene = Scene.GALLERY ∧ (24 : Rat) < |c.state.gallery_swipe_x| then
             (if c.state.gallery_swipe_x < (0 : Rat) then c.state.gallery_index + 1
              else max 0 (c.state.gallery_index - 1))
           else c.state.gallery_index)) ∧
    ((AppController.handle now c touchUpEvent).state.gallery_swipe_x
        = (if c.state.scene = Scene.GALLERY ∧ (24 : Rat) < |c.state.gallery_swipe_x| then 0
           else c.state.gallery_swipe_x)) := by
  refine ⟨?_, ?_, ?_⟩
  · by_cases hsc : c.state.scene = Scene.GALLERY <;>
      simp only [AppController.handle, touchMoveEvent, AppController.mark_all_dirty,
        AppController.mark_dirty, drag_scene_eq, drag_swipe_eq] <;>
      simp [hsc, drag_scene_eq, drag_swipe_eq]
  · by_cases hsc : c.state.scene = Scene.GALLERY <;>
      by_cases hth : (24 : Rat) < |c.state.gallery_swipe_x| <;>
      by_cases hneg : c.state.gallery_swipe_x < (0 : Rat) <;>
      simp only [AppController.handle, touchUpEvent, AppController.mark_all_dirty,
        AppController.mark_dirty] <;>
      simp [hsc, hth, hneg]
  · by_cases hsc : c.state.scene = Scene.GALLERY <;>
      by_cases hth : (24 : Rat) < |c.state.gallery_swipe_x| <;>
      simp only [AppController.handle, touchUpEvent, AppController.mark_all_dirty,
        AppController.mark_dirty] <;>
      simp [hsc, hth]

theorem gi_mark_dirty (c : AppController) (r : Int × Int × Int × Int) :
    (c.mark_dirty r).state.gallery_index = c.state.gallery_index := rfl

theorem gi_mark_all_dirty (c : AppController) :
    c.mark_all_dirty.state.gallery_index = c.state.gallery_index := rfl

theorem gi_back (c : AppController) :
    c.back.state.gallery_index = c.state.gallery_index := by
  unfold AppController.back
  split_ifs <;> simp

theorem gi_push_scene (c : AppController) (sc : Scene) :
    (c.push_scene sc).state.gallery_index = c.state.gallery_index := by
  unfold AppController.push_scene
  split <;> simp

set_option maxHeartbeats 1000000 in
theorem gi_tick (now : Rat) (c : AppController) (dt : Rat) :
    (AppController.tick now c dt).state.gallery_index = c.state.gallery_index := by
  unfold AppController.tick
  dsimp only
  simp only [apply_ite AppController.state, apply_ite AppState.gallery_index,
    gi_mark_all_dirty, gi_mark_dirty, ite_self]

set_option maxHeartbeats 1000000 in
theorem on_press_gallery_index (now : Rat) (c : AppController) (s : String) :
    (AppController._on_press now c (some s)).state.gallery_index
      = (if s = "gallery_prev" then max 0 (c.state.gallery_index - 1)
         else if s = "gallery_next" then c.state.gallery_index + 1
         else c.state.gallery_index) := by
  simp only [AppController._on_press]
  rw [gi_mark_all_dirty]
  simp only [apply_ite AppController.state, apply_ite AppState.gallery_index,
    gi_back, gi_push_scene]
  split_ifs <;> simp_all

theorem on_press_gallery_index_nonneg (now : Rat) (c : AppController)
    (k : Option String) (h : 0 ≤ c.state.gallery_index) :
    0 ≤ (AppController._on_press now c k).state.gallery_index := by
  match k with
  | none => exact h
  | some s =>
    rw [on_press_gallery_index]
    split_ifs <;> omega

set_option maxHeartbeats 1000000 in
theorem handle_gallery_index_nonneg (now : Rat) (c : AppController)
    (e : InputEvent) (h : 0 ≤ c.state.gallery_index) :
    0 ≤ (AppController.handle now c e).state.gallery_index := by
  obtain ⟨ty, pos, delta, ts⟩ := e
  cases ty
  case TOUCH_DOWN =>
    exact on_press_gallery_index_nonneg now _ _ h
  case TOUCH_MOVE =>
    simp only [AppController.handle]
    split
    · rw [gi_mark_all_dirty]
      dsimp only
      rw [drag_gallery_index_eq]
      exact h
    · rw [drag_gallery_index_eq]
      exact h
  case TOUCH_UP =>
    simp only [AppController.handle]
    simp only [apply_ite AppController.state, apply_ite AppState.gallery_index,
      gi_mark_all_dirty]
    split_ifs <;> omega
  case BACK =>
    simp only [AppController.handle]
    rw [gi_mark_all_dirty, gi_back]
    exact h
  all_goals
    simp only [AppController.handle]
    exact h

/-- The operations external code performs on a controller: `handle(event)`,
`tick(dt)` and the renderer's `set_hitboxes`. -/
inductive ControllerOp where
  | opHandle (now : Rat) (e : InputEvent)
  | opTick (now : Rat) (dt : Rat)
  | opSetHitboxes (boxes : List (String × (Int × Int × Int × Int)))

/-- Apply one operation to the controller. -/
def applyOp (c : AppController) : ControllerOp → AppController
  | ControllerOp.opHandle now e => AppController.handle now c e
  | ControllerOp.opTick now dt => AppController.tick now c dt
  | ControllerOp.opSetHitboxes boxes => c.set_hitboxes boxes

/-- Run a sequence of operations from a given controller. -/
def runOps (c : AppController) : List ControllerOp → AppController
  | [] => c
  | op :: ops => runOps (applyOp c op) ops

theorem applyOp_gallery_index_nonneg (c : AppController) (op : ControllerOp)
    (h : 0 ≤ c.state.gallery_index) :
    0 ≤ (applyOp c op).state.gallery_index := by
  cases op with
  | opHandle now e => exact handle_gallery_index_nonneg now c e h
  | opTick now dt => rw [applyOp, gi_tick]; exact h
  | opSetHitboxes boxes => simpa [applyOp, AppController.set_hitboxes] using h

theorem runOps_gallery_index_nonneg (ops : List ControllerOp) :
    ∀ c : AppController, 0 ≤ c.state.gallery_index →
      0 ≤ (runOps c ops).state.gallery_index := by
  induction ops with
  | nil => intro c h; simpa [runOps] using h
  | cons op ops ih =>
    intro c h
    exact ih (applyOp c op) (applyOp_gallery_index_nonneg c op h)

/-- C10: `gallery_index` is never negative — it starts at 0 in a freshly
constructed controller, and every sequence of `handle` / `tick` /
`set_hitboxes` operations (which can only increment it or decrement it
clamped at zero, via the gallery hit-test handlers and the touch-up swipe
conversion) preserves `0 ≤ gallery_index`. -/
theorem gallery_index_nonneg (w h : Int) (ops : List ControllerOp) :
    0 ≤ (runOps (AppController.init w h) ops).state.gallery_index :=
  runOps_gallery_index_nonneg ops (AppController.init w h) (by simp [AppController.init])

end SelimCam
